import Mathlib

/-!
Verification of `src/io/gridplotter.hpp` (class `GridPlotter` of the
fast_methods repository) against its specification.

The C++ functions are embedded shallowly:

* A grid cell is a record with the three duck-typed accessors the plotter
  calls: `isOccupied()`, `getOccupancy()` and `getValue()`.
* The `nDGridMap` collaborator (its header is not part of the sources given,
  only the plotter that calls it) is modelled from the spec as a width, a
  height, a linearly indexed cell store and the cached `getMaxValue()`.
* C++ `double` arithmetic is embedded as exact rational arithmetic `ℚ`.
  The only place where IEEE semantics diverges from field arithmetic that
  the code can reach is division by a zero `maxValue()`, which in IEEE
  produces a non-finite value (NaN or ±infinity) without any trap; finite
  quotients are modelled exactly, a non-finite result is modelled as `none`
  of `Option ℚ`.
* A `CImg` raster buffer of size (w, h) with `s` channels is modelled as a
  function from coordinates to the stored value; the buffer's valid domain
  is `x < w`, `y < h`, `c < s` and the theorems quantify over that range.
  Writes of the overlay loops are modelled as pointwise function update,
  in the order the loops perform them; in addition, the list of (x, y,
  channel) stores that the multi-path loop issues is recorded, because the
  source performs no bound check on the channel index.
* `img.display(name)` hands the finished buffer and the title string to the
  display sink; each entry point is therefore modelled as returning the
  pair (title passed to the sink, finished buffer).
-/

/-- Grid-space point with `double` coordinates (`std::array<double, 2>`). -/
abbrev Point2D : Type := ℚ × ℚ

/-- Polyline path, `std::vector<Point2D>`. -/
abbrev Path2D : Type := List Point2D

/-- Path set, `std::vector<Path2D>`. -/
abbrev Paths2D : Type := List Path2D

namespace GridPlotter

/-- Cell interface the plotter consumes: `isOccupied()` must be bool valued,
`getOccupancy()` in [0,1] and `getValue()` a scalar (doubles embedded as ℚ). -/
structure Cell where
  isOccupied : Bool
  getOccupancy : ℚ
  getValue : ℚ

/-- Modelled from the spec: the 2D `nDGridMap` collaborator
(`src/ndgridmap/ndgridmap.hpp` is not among the given sources).  Per the
spec's Grid interface it exposes `dimensions() -> (width, height)`
(`getDimSizes()`), per-cell accessors through a linear index
(`operator[]`), and a grid-wide `maxValue()` (`getMaxValue()`).  Grid space
has origin bottom-left and relates to raster space by `row = height - y - 1`,
`col = x`. -/
structure NDGridMap where
  width : ℕ
  height : ℕ
  cells : ℕ → Cell
  getMaxValue : ℚ

/-- Modelled from the spec: the cell at grid coordinates (x, y) sits at
linear index `width * y + x`  (so that, as the spec states, image pixel
(x, y) — which the code fills from linear index `width*(height-y-1)+x` —
shows grid cell (x, height - y - 1)). -/
def NDGridMap.cellAt (g : NDGridMap) (x y : ℕ) : Cell :=
  g.cells (g.width * y + x)

/-- `static_cast<unsigned int>` applied to a non-negative double truncates;
for the in-contract range (non-negative path coordinates) this is the floor.
A negative or huge double makes the C++ cast undefined. -/
def truncD (q : ℚ) : ℕ := (⌊q⌋).toNat

/-- Raster position of a path vertex: both coordinates are truncated and the
Y dimension is flipped, `(static_cast<unsigned int>(p[0]),
height - static_cast<unsigned int>(p[1]) - 1)`. -/
def vertPos (h : ℕ) (p : Point2D) : ℕ × ℕ :=
  (truncD p.1, h - truncD p.2 - 1)

/-- Buffer of `plotMap`: `CImg<bool> img(d[0],d[1],1,1,0)` filled by
`img(x,y) = !grid[img.width()*(img.height()-y-1)+x].isOccupied()`. -/
def plotMapImg (g : NDGridMap) : ℕ → ℕ → Bool :=
  fun x y => !(g.cells (g.width * (g.height - y - 1) + x)).isOccupied

/-- `plotMap`: renders the binary map, appends " Map" to the name and hands
both to the display sink. -/
def plotMap (g : NDGridMap) (name : String) : String × (ℕ → ℕ → Bool) :=
  (name ++ " Map", plotMapImg g)

/-- Buffer of `plotOccupancyMap`:
`img(x,y) = grid[img.width()*(img.height()-y-1)+x].getOccupancy()*255`. -/
def plotOccupancyMapImg (g : NDGridMap) : ℕ → ℕ → ℚ :=
  fun x y => (g.cells (g.width * (g.height - y - 1) + x)).getOccupancy * 255

/-- `plotOccupancyMap`: renders the continuous occupancy map and appends
" Occupancy Map" to the name. -/
def plotOccupancyMap (g : NDGridMap) (name : String) : String × (ℕ → ℕ → ℚ) :=
  (name ++ " Occupancy Map", plotOccupancyMapImg g)

/-- IEEE division of doubles, embedded over ℚ: a zero divisor yields a
non-finite value (0/0 is NaN, v/0 is ±infinity) with no trap or exception,
modelled as `none`; a non-zero divisor yields the exact quotient. -/
def ddiv (a b : ℚ) : Option ℚ :=
  if b = 0 then none else some (a / b)

/-- Pre-colormap buffer of `plotArrivalTimes`:
`img(x,y) = grid[img.width()*(img.height()-y-1)+x].getValue()/max_val*255`
with `max_val = grid.getMaxValue()`. -/
def plotArrivalTimesPre (g : NDGridMap) : ℕ → ℕ → Option ℚ :=
  fun x y =>
    (ddiv (g.cells (g.width * (g.height - y - 1) + x)).getValue
        g.getMaxValue).map (fun q => q * 255)

/-- Modelled from the spec: `img.map(CImg<double>::jet_LUT256())` (CImg is a
third-party header not among the given sources) maps each scalar channel
value through a 256-entry lookup table to an RGB triple, the scalar being
used, truncated to an integer, as the table index.  The table itself is an
abstract parameter `lut`. -/
def mapLUT (lut : ℕ → ℚ × ℚ × ℚ) (img : ℕ → ℕ → Option ℚ) :
    ℕ → ℕ → Option (ℚ × ℚ × ℚ) :=
  fun x y => (img x y).map (fun v => lut (truncD v))

/-- `plotArrivalTimes`: renders the normalized value map, applies the jet
colormap, appends " Grid values" to the name. -/
def plotArrivalTimes (lut : ℕ → ℚ × ℚ × ℚ) (g : NDGridMap) (name : String) :
    String × (ℕ → ℕ → Option (ℚ × ℚ × ℚ)) :=
  (name ++ " Grid values", mapLUT lut (plotArrivalTimesPre g))

/-- Pointwise store into a 3-channel buffer: `img(px, py, 0, pc) = v`. -/
def writeChan (img : ℕ → ℕ → ℕ → ℚ) (px py pc : ℕ) (v : ℚ) :
    ℕ → ℕ → ℕ → ℚ :=
  fun x y c => if x = px ∧ y = py ∧ c = pc then v else img x y c

/-- Base fill shared by `plotMapPath` and `plotMapPaths`:
`cimg_forXYZC(img,x,y,z,c) { img(x,y,z,c) =
(!grid[img.width()*(img.height()-y-1)+x].isOccupied())*255; }` — the value
does not depend on the channel. -/
def mapPathBase (g : NDGridMap) : ℕ → ℕ → ℕ → ℚ :=
  fun x y _c =>
    if (g.cells (g.width * (g.height - y - 1) + x)).isOccupied then 0 else 255

/-- Base fill of `plotOccupancyPath`:
`img(x,y,z,c) = grid[img.width()*(img.height()-y-1)+x].getOccupancy()*255`. -/
def occPathBase (g : NDGridMap) : ℕ → ℕ → ℕ → ℚ :=
  fun x y _c => (g.cells (g.width * (g.height - y - 1) + x)).getOccupancy * 255

/-- One iteration of the vertex loop of `plotMapPaths` at path index `j`:
`img(..., 0, j) = 0; img(..., 0, j+1) = 0;` at the truncated, Y-flipped
vertex position. -/
def drawVertexJ (h j : ℕ) (img : ℕ → ℕ → ℕ → ℚ) (p : Point2D) :
    ℕ → ℕ → ℕ → ℚ :=
  writeChan (writeChan img (vertPos h p).1 (vertPos h p).2 j 0)
    (vertPos h p).1 (vertPos h p).2 (j + 1) 0

/-- The vertex loop of `plotMapPaths` over one path at index `j`. -/
def drawPathJ (h j : ℕ) (img : ℕ → ℕ → ℕ → ℚ) (path : Path2D) :
    ℕ → ℕ → ℕ → ℚ :=
  path.foldl (drawVertexJ h j) img

/-- One iteration of the vertex loop of `plotMapPath` (and of
`plotOccupancyPath`): `img(..., 0, 1) = 0; img(..., 0, 2) = 0;` at the
truncated, Y-flipped vertex position. -/
def drawVertex12 (h : ℕ) (img : ℕ → ℕ → ℕ → ℚ) (p : Point2D) :
    ℕ → ℕ → ℕ → ℚ :=
  writeChan (writeChan img (vertPos h p).1 (vertPos h p).2 1 0)
    (vertPos h p).1 (vertPos h p).2 2 0

/-- Buffer of `plotMapPath`: the inverted-occupancy base, then for each path
vertex channels 1 and 2 are zeroed at its raster position. -/
def plotMapPathImg (g : NDGridMap) (path : Path2D) : ℕ → ℕ → ℕ → ℚ :=
  path.foldl (drawVertex12 g.height) (mapPathBase g)

/-- `plotMapPath`: map plus one path, title suffix " Map and Path". -/
def plotMapPath (g : NDGridMap) (path : Path2D) (name : String) :
    String × (ℕ → ℕ → ℕ → ℚ) :=
  (name ++ " Map and Path", plotMapPathImg g path)

/-- Buffer of `plotOccupancyPath`: the occupancy base, then for each path
vertex channels 1 and 2 are zeroed at its raster position. -/
def plotOccupancyPathImg (g : NDGridMap) (path : Path2D) : ℕ → ℕ → ℕ → ℚ :=
  path.foldl (drawVertex12 g.height) (occPathBase g)

/-- `plotOccupancyPath`: occupancy map plus one path, title suffix
" Map and Path". -/
def plotOccupancyPath (g : NDGridMap) (path : Path2D) (name : String) :
    String × (ℕ → ℕ → ℕ → ℚ) :=
  (name ++ " Map and Path", plotOccupancyPathImg g path)

/-- The outer loop `for j = 0 .. paths.size()-1` of `plotMapPaths`,
carrying the running path index `j`. -/
def drawPathsFrom (h j : ℕ) (img : ℕ → ℕ → ℕ → ℚ) :
    Paths2D → ℕ → ℕ → ℕ → ℚ
  | [] => img
  | path :: rest => drawPathsFrom h (j + 1) (drawPathJ h j img path) rest

/-- Buffer of `plotMapPaths`: the inverted-occupancy base, then path `j`
zeroes channels `j` and `j+1` at each of its vertex raster positions. -/
def plotMapPathsImg (g : NDGridMap) (paths : Paths2D) : ℕ → ℕ → ℕ → ℚ :=
  drawPathsFrom g.height 0 (mapPathBase g) paths

/-- `plotMapPaths`: map plus a vector of paths, title suffix
" Map and Paths". -/
def plotMapPaths (g : NDGridMap) (paths : Paths2D) (name : String) :
    String × (ℕ → ℕ → ℕ → ℚ) :=
  (name ++ " Map and Paths", plotMapPathsImg g paths)

/-- The two (x, y, channel) stores one vertex-loop iteration of
`plotMapPaths` issues at path index `j`.  The buffer has 3 channels, so a
recorded channel index ≥ 3 is a store outside the allocated buffer. -/
def vertWritesJ (h j : ℕ) (p : Point2D) : List (ℕ × ℕ × ℕ) :=
  [((vertPos h p).1, (vertPos h p).2, j),
   ((vertPos h p).1, (vertPos h p).2, j + 1)]

/-- All stores of the vertex loop of `plotMapPaths` over one path. -/
def pathWritesJ (h j : ℕ) (path : Path2D) : List (ℕ × ℕ × ℕ) :=
  path.flatMap (vertWritesJ h j)

/-- All stores of the path loops of `plotMapPaths`, in order. -/
def pathsWritesFrom (h j : ℕ) : Paths2D → List (ℕ × ℕ × ℕ)
  | [] => []
  | path :: rest => pathWritesJ h j path ++ pathsWritesFrom h (j + 1) rest

/-- The (x, y, channel) stores `plotMapPaths` issues into its 3-channel
buffer. -/
def plotMapPathsWrites (g : NDGridMap) (paths : Paths2D) :
    List (ℕ × ℕ × ℕ) :=
  pathsWritesFrom g.height 0 paths

/-- Pointwise store into the 1-channel scalar buffer. -/
def write1 (img : ℕ → ℕ → Option ℚ) (px py : ℕ) (v : Option ℚ) :
    ℕ → ℕ → Option ℚ :=
  fun x y => if x = px ∧ y = py then v else img x y

/-- One iteration of the vertex loop of `plotArrivalTimesPath`:
`img(static_cast<unsigned int>(path[i][0]),
(img.height()-static_cast<unsigned int>(path[i][1])-1)) = 255`. -/
def writeVert255 (h : ℕ) (img : ℕ → ℕ → Option ℚ) (p : Point2D) :
    ℕ → ℕ → Option ℚ :=
  write1 img (vertPos h p).1 (vertPos h p).2 (some 255)

/-- Pre-colormap buffer of `plotArrivalTimesPath`: the normalized value
fill, then `img(...) = 255` at each truncated, Y-flipped vertex position. -/
def plotArrivalTimesPathPre (g : NDGridMap) (path : Path2D) :
    ℕ → ℕ → Option ℚ :=
  path.foldl (writeVert255 g.height) (plotArrivalTimesPre g)

/-- `plotArrivalTimesPath`: normalized value map, then the path vertices are
written as 255, then the jet colormap is applied; title suffix
" Values and Path". -/
def plotArrivalTimesPath (lut : ℕ → ℚ × ℚ × ℚ) (g : NDGridMap)
    (path : Path2D) (name : String) :
    String × (ℕ → ℕ → Option (ℚ × ℚ × ℚ)) :=
  (name ++ " Values and Path", mapLUT lut (plotArrivalTimesPathPre g path))

/-! Helper lemmas about the pointwise stores of the overlay loops. -/

lemma writeChan_ne (img : ℕ → ℕ → ℕ → ℚ) (px py pc : ℕ) (v : ℚ) (x y c : ℕ)
    (hne : ¬(x = px ∧ y = py ∧ c = pc)) :
    writeChan img px py pc v x y c = img x y c := by
  simp only [writeChan]
  rw [if_neg hne]

lemma drawVertexJ_frame (h j : ℕ) (img : ℕ → ℕ → ℕ → ℚ) (p : Point2D)
    (x y c : ℕ) (hp : vertPos h p ≠ (x, y)) :
    drawVertexJ h j img p x y c = img x y c := by
  have hne : ¬(x = (vertPos h p).1 ∧ y = (vertPos h p).2) := by
    rintro ⟨rfl, rfl⟩
    exact hp rfl
  simp only [drawVertexJ, writeChan]
  rw [if_neg fun hc => hne ⟨hc.1, hc.2.1⟩, if_neg fun hc => hne ⟨hc.1, hc.2.1⟩]

lemma drawVertexJ_chan (h j : ℕ) (img : ℕ → ℕ → ℕ → ℚ) (p : Point2D)
    (x y c : ℕ) (h1 : c ≠ j) (h2 : c ≠ j + 1) :
    drawVertexJ h j img p x y c = img x y c := by
  simp only [drawVertexJ, writeChan]
  rw [if_neg fun hc => h2 hc.2.2, if_neg fun hc => h1 hc.2.2]

lemma drawVertexJ_self (h j : ℕ) (img : ℕ → ℕ → ℕ → ℚ) (p : Point2D) :
    drawVertexJ h j img p (vertPos h p).1 (vertPos h p).2 j = 0 ∧
    drawVertexJ h j img p (vertPos h p).1 (vertPos h p).2 (j + 1) = 0 := by
  have hj : j ≠ j + 1 := by omega
  constructor
  · simp [drawVertexJ, writeChan, hj]
  · simp [drawVertexJ, writeChan]

lemma drawPathJ_frame (h j : ℕ) (path : Path2D) (img : ℕ → ℕ → ℕ → ℚ)
    (x y c : ℕ) (hp : ∀ p ∈ path, vertPos h p ≠ (x, y)) :
    drawPathJ h j img path x y c = img x y c := by
  induction path generalizing img with
  | nil => rfl
  | cons a rest ih =>
    rw [show drawPathJ h j img (a :: rest)
          = drawPathJ h j (drawVertexJ h j img a) rest from rfl,
      ih _ (fun p hp2 => hp p (List.mem_cons_of_mem a hp2)),
      drawVertexJ_frame h j img a x y c (hp a (List.mem_cons_self a rest))]

lemma drawPathJ_chan (h j : ℕ) (path : Path2D) (img : ℕ → ℕ → ℕ → ℚ)
    (x y c : ℕ) (h1 : c ≠ j) (h2 : c ≠ j + 1) :
    drawPathJ h j img path x y c = img x y c := by
  induction path generalizing img with
  | nil => rfl
  | cons a rest ih =>
    rw [show drawPathJ h j img (a :: rest)
          = drawPathJ h j (drawVertexJ h j img a) rest from rfl,
      ih, drawVertexJ_chan h j img a x y c h1 h2]

lemma drawPathJ_written (h j : ℕ) (path : Path2D) (img : ℕ → ℕ → ℕ → ℚ)
    (x y : ℕ) (hv : ∃ p ∈ path, vertPos h p = (x, y)) :
    drawPathJ h j img path x y j = 0 ∧
    drawPathJ h j img path x y (j + 1) = 0 := by
  induction path generalizing img with
  | nil => simp at hv
  | cons a rest ih =>
    by_cases hrest : ∃ p ∈ rest, vertPos h p = (x, y)
    · exact ih _ hrest
    · have ha : vertPos h a = (x, y) := by
        rcases hv with ⟨p, hp, hpe⟩
        rcases List.mem_cons.mp hp with h1 | h2
        · rwa [h1] at hpe
        · exact absurd ⟨p, h2, hpe⟩ hrest
      have hframe : ∀ q ∈ rest, vertPos h q ≠ (x, y) :=
        fun q hq e => hrest ⟨q, hq, e⟩
      obtain ⟨hx, hy⟩ : (vertPos h a).1 = x ∧ (vertPos h a).2 = y := by
        rw [ha]
        exact ⟨rfl, rfl⟩
      subst hx
      subst hy
      constructor
      · rw [show drawPathJ h j img (a :: rest)
              = drawPathJ h j (drawVertexJ h j img a) rest from rfl,
          drawPathJ_frame h j rest _ _ _ j hframe]
        exact (drawVertexJ_self h j img a).1
      · rw [show drawPathJ h j img (a :: rest)
              = drawPathJ h j (drawVertexJ h j img a) rest from rfl,
          drawPathJ_frame h j rest _ _ _ (j + 1) hframe]
        exact (drawVertexJ_self h j img a).2

lemma drawPathsFrom_frame (h : ℕ) (L : Paths2D) (j : ℕ)
    (img : ℕ → ℕ → ℕ → ℚ) (x y c : ℕ)
    (hv : ∀ q ∈ L, ∀ p ∈ q, vertPos h p ≠ (x, y)) :
    drawPathsFrom h j img L x y c = img x y c := by
  induction L generalizing j img with
  | nil => rfl
  | cons a rest ih =>
    rw [show drawPathsFrom h j img (a :: rest)
          = drawPathsFrom h (j + 1) (drawPathJ h j img a) rest from rfl,
      ih _ _ (fun q hq => hv q (List.mem_cons_of_mem a hq)),
      drawPathJ_frame h j a img x y c (hv a (List.mem_cons_self a rest))]

lemma write1_ne (img : ℕ → ℕ → Option ℚ) (px py : ℕ) (v : Option ℚ)
    (x y : ℕ) (hne : ¬(x = px ∧ y = py)) :
    write1 img px py v x y = img x y := by
  simp only [write1]
  rw [if_neg hne]

lemma writeVert255_frame (h : ℕ) (img : ℕ → ℕ → Option ℚ) (p : Point2D)
    (x y : ℕ) (hp : vertPos h p ≠ (x, y)) :
    writeVert255 h img p x y = img x y := by
  have hne : ¬(x = (vertPos h p).1 ∧ y = (vertPos h p).2) := by
    rintro ⟨rfl, rfl⟩
    exact hp rfl
  simp only [writeVert255]
  exact write1_ne img _ _ _ x y hne

lemma writeVerts_frame (h : ℕ) (path : Path2D) (img : ℕ → ℕ → Option ℚ)
    (x y : ℕ) (hp : ∀ p ∈ path, vertPos h p ≠ (x, y)) :
    path.foldl (writeVert255 h) img x y = img x y := by
  induction path generalizing img with
  | nil => rfl
  | cons a rest ih =>
    rw [show (a :: rest).foldl (writeVert255 h) img
          = rest.foldl (writeVert255 h) (writeVert255 h img a) from rfl,
      ih _ (fun p hp2 => hp p (List.mem_cons_of_mem a hp2)),
      writeVert255_frame h img a x y (hp a (List.mem_cons_self a rest))]

lemma writeVerts_written (h : ℕ) (path : Path2D) (img : ℕ → ℕ → Option ℚ)
    (x y : ℕ) (hv : ∃ p ∈ path, vertPos h p = (x, y)) :
    path.foldl (writeVert255 h) img x y = some 255 := by
  induction path generalizing img with
  | nil => simp at hv
  | cons a rest ih =>
    by_cases hrest : ∃ p ∈ rest, vertPos h p = (x, y)
    · exact ih _ hrest
    · have ha : vertPos h a = (x, y) := by
        rcases hv with ⟨p, hp, hpe⟩
        rcases List.mem_cons.mp hp with h1 | h2
        · rwa [h1] at hpe
        · exact absurd ⟨p, h2, hpe⟩ hrest
      have hframe : ∀ q ∈ rest, vertPos h q ≠ (x, y) :=
        fun q hq e => hrest ⟨q, hq, e⟩
      obtain ⟨hx, hy⟩ : (vertPos h a).1 = x ∧ (vertPos h a).2 = y := by
        rw [ha]
        exact ⟨rfl, rfl⟩
      subst hx
      subst hy
      rw [show (a :: rest).foldl (writeVert255 h) img
            = rest.foldl (writeVert255 h) (writeVert255 h img a) from rfl,
        writeVerts_frame h rest _ _ _ hframe]
      simp [writeVert255, write1]

/-! Concrete fixtures used to instantiate the theorems. -/

/-- A free cell: not occupied, occupancy 0, value 0. -/
def freeCell : Cell := ⟨false, 0, 0⟩

/-- An occupied cell: occupied, occupancy 1, value 0. -/
def wallCell : Cell := ⟨true, 1, 0⟩

/-- 3×3 grid, fully unoccupied. -/
def gFree3 : NDGridMap := ⟨3, 3, fun _ => freeCell, 0⟩

/-- 3×3 grid with exactly cell (1, 1) (linear index 3*1+1 = 4) occupied. -/
def gOcc11 : NDGridMap := ⟨3, 3, fun i => if i = 4 then wallCell else freeCell, 0⟩

/-- 2×2 free grid whose cell at linear index i has value i, max value 3. -/
def gVal : NDGridMap := ⟨2, 2, fun i => ⟨false, 0, (i : ℚ)⟩, 3⟩

/-- 2×2 free grid whose scalar field is identically 0, so getMaxValue() is 0. -/
def gZero : NDGridMap := ⟨2, 2, fun _ => freeCell, 0⟩

/-- 1×1 free grid. -/
def g1 : NDGridMap := ⟨1, 1, fun _ => freeCell, 0⟩

/-- A concrete stand-in for the jet lookup table. -/
def lutEx : ℕ → ℚ × ℚ × ℚ := fun n => ((n : ℚ), (n : ℚ), (n : ℚ))

/-- One-vertex path at grid point (0, 0). -/
def pEx : Path2D := [((0 : ℚ), (0 : ℚ))]

/-- Diagonal path over the 3×3 grid. -/
def pathDiag : Path2D :=
  [((0 : ℚ), (0 : ℚ)), ((1 : ℚ), (1 : ℚ)), ((2 : ℚ), (2 : ℚ))]

/-- One-vertex path at grid point (1, 1). -/
def p0Ex : Path2D := [((1 : ℚ), (1 : ℚ))]

/-- One-vertex path at grid point (1.5, 1.5), which truncates to cell (1, 1). -/
def p1Ex : Path2D := [((3 / 2 : ℚ), (3 / 2 : ℚ))]

/-! Claim theorems. -/

/-- C1: for every 2D grid and every in-range cell (x, y), the raster pixel
at (x, height - y - 1) holds exactly the per-cell extractor output of cell
(x, y), for each of the three full-grid renders (plotMap, plotOccupancyMap,
plotArrivalTimes); and the Y flip is its own inverse, so the cell-to-pixel
mapping is a bijection. -/
theorem C1_coordinate_flip (g : NDGridMap) (x y : ℕ)
    (hx : x < g.width) (hy : y < g.height) :
    plotMapImg g x (g.height - y - 1) = !(g.cellAt x y).isOccupied ∧
    plotOccupancyMapImg g x (g.height - y - 1)
      = (g.cellAt x y).getOccupancy * 255 ∧
    plotArrivalTimesPre g x (g.height - y - 1)
      = (ddiv (g.cellAt x y).getValue g.getMaxValue).map (fun q => q * 255) ∧
    g.height - (g.height - y - 1) - 1 = y := by
  have hA : g.height - (g.height - y - 1) - 1 = y := by omega
  refine ⟨?_, ?_, ?_, hA⟩ <;>
    simp [plotMapImg, plotOccupancyMapImg, plotArrivalTimesPre,
      NDGridMap.cellAt, hA]

/-- Witness for C1 at the concrete 2×2 valued grid and cell (1, 1). -/
theorem C1_coordinate_flip_witness :
    plotMapImg gVal 1 (gVal.height - 1 - 1) = !(gVal.cellAt 1 1).isOccupied ∧
    plotOccupancyMapImg gVal 1 (gVal.height - 1 - 1)
      = (gVal.cellAt 1 1).getOccupancy * 255 ∧
    plotArrivalTimesPre gVal 1 (gVal.height - 1 - 1)
      = (ddiv (gVal.cellAt 1 1).getValue gVal.getMaxValue).map (fun q => q * 255) ∧
    gVal.height - (gVal.height - 1 - 1) - 1 = 1 :=
  C1_coordinate_flip gVal 1 1 (by decide) (by decide)

/-- C2: in binary occupancy mode the pixel showing cell (x, y) is bright
(true) iff the cell is unoccupied; occupied cells give dark (false) pixels. -/
theorem C2_binary_inversion (g : NDGridMap) (x y : ℕ)
    (hx : x < g.width) (hy : y < g.height) :
    (plotMapImg g x (g.height - y - 1) = true
      ↔ (g.cellAt x y).isOccupied = false) := by
  have hA : g.height - (g.height - y - 1) - 1 = y := by omega
  simp [plotMapImg, NDGridMap.cellAt, hA]

/-- Witness for C2 at the 3×3 grid with cell (1, 1) occupied: the pixel at
(1, 3-1-1) = (1, 1) is dark exactly because the cell is occupied. -/
theorem C2_binary_inversion_witness :
    (plotMapImg gOcc11 1 (gOcc11.height - 1 - 1) = true
      ↔ (gOcc11.cellAt 1 1).isOccupied = false) :=
  C2_binary_inversion gOcc11 1 1 (by decide) (by decide)

/-- C3: in scalar-field mode with maxValue() > 0 and the cell value in
[0, maxValue()], the pre-colormap pixel showing cell (x, y) equals
value()/maxValue()*255, that quantity lies in [0, 255], and a cell whose
value equals maxValue() maps to exactly 255. -/
theorem C3_scalar_range (g : NDGridMap) (x y : ℕ)
    (hx : x < g.width) (hy : y < g.height)
    (hmax : 0 < g.getMaxValue)
    (h0 : 0 ≤ (g.cellAt x y).getValue)
    (h1 : (g.cellAt x y).getValue ≤ g.getMaxValue) :
    plotArrivalTimesPre g x (g.height - y - 1)
      = some ((g.cellAt x y).getValue / g.getMaxValue * 255) ∧
    0 ≤ (g.cellAt x y).getValue / g.getMaxValue * 255 ∧
    (g.cellAt x y).getValue / g.getMaxValue * 255 ≤ 255 ∧
    ((g.cellAt x y).getValue = g.getMaxValue →
      (g.cellAt x y).getValue / g.getMaxValue * 255 = 255) := by
  have hA : g.height - (g.height - y - 1) - 1 = y := by omega
  have hne : g.getMaxValue ≠ 0 := ne_of_gt hmax
  refine ⟨?_, ?_, ?_, ?_⟩
  · simp [plotArrivalTimesPre, ddiv, NDGridMap.cellAt, hA, hne]
  · exact mul_nonneg (div_nonneg h0 hmax.le) (by norm_num)
  · have hq : (g.cellAt x y).getValue / g.getMaxValue ≤ 1 :=
      (div_le_one hmax).mpr h1
    have hm := mul_le_mul_of_nonneg_right hq (show (0:ℚ) ≤ 255 by norm_num)
    simpa using hm
  · intro he
    rw [he, div_self hne, one_mul]

/-- Witness for C3 at the 2×2 valued grid, cell (1, 1): its value 3 is the
maximum, and the pixel is exactly 255. -/
theorem C3_scalar_range_witness :
    plotArrivalTimesPre gVal 1 (gVal.height - 1 - 1)
      = some ((gVal.cellAt 1 1).getValue / gVal.getMaxValue * 255) ∧
    0 ≤ (gVal.cellAt 1 1).getValue / gVal.getMaxValue * 255 ∧
    (gVal.cellAt 1 1).getValue / gVal.getMaxValue * 255 ≤ 255 ∧
    ((gVal.cellAt 1 1).getValue = gVal.getMaxValue →
      (gVal.cellAt 1 1).getValue / gVal.getMaxValue * 255 = 255) :=
  C3_scalar_range gVal 1 1 (by decide) (by decide) (by decide) (by decide)
    (by decide)

/-- C4 counterexample: on the 1×1 free grid with the one-vertex path at
(0, 0), plotMapPath leaves channel 0 of the vertex pixel at its base value
255 (it zeroes channels 1 and 2), while plotMapPaths on the singleton path
set zeroes channel 0 (it zeroes channels 0 and 1), so the two renders do
not produce the same buffer. -/
theorem C4_counterexample :
    plotMapPathImg g1 pEx 0 0 0 = 255 ∧
    plotMapPathsImg g1 [pEx] 0 0 0 = 0 ∧
    plotMapPathImg g1 pEx ≠ plotMapPathsImg g1 [pEx] := by
  have h1 : plotMapPathImg g1 pEx 0 0 0 = 255 := by decide
  have h2 : plotMapPathsImg g1 [pEx] 0 0 0 = 0 := by decide
  refine ⟨h1, h2, fun he => ?_⟩
  rw [he] at h1
  rw [h2] at h1
  exact absurd h1 (by norm_num)

/-- C4 amended: single-path and multi-path map overlay share the base fill
and vertex raster positions but zero different channels: at every vertex
pixel, plotMapPath zeroes channels 1 and 2 and keeps channel 0 at its base
value, whereas plotMapPaths on the one-element path set zeroes channels 0
and 1 and keeps channel 2 at its base value; hence the buffers differ at
every path vertex over a free cell. -/
theorem C4_single_vs_multi (g : NDGridMap) (path : Path2D) (x y : ℕ)
    (hv : ∃ p ∈ path, vertPos g.height p = (x, y)) :
    plotMapPathImg g path x y 1 = 0 ∧
    plotMapPathImg g path x y 2 = 0 ∧
    plotMapPathImg g path x y 0 = mapPathBase g x y 0 ∧
    plotMapPathsImg g [path] x y 0 = 0 ∧
    plotMapPathsImg g [path] x y 1 = 0 ∧
    plotMapPathsImg g [path] x y 2 = mapPathBase g x y 2 := by
  have e1 : plotMapPathImg g path
      = drawPathJ g.height 1 (mapPathBase g) path := rfl
  have e2 : plotMapPathsImg g [path]
      = drawPathJ g.height 0 (mapPathBase g) path := rfl
  have w1 := drawPathJ_written g.height 1 path (mapPathBase g) x y hv
  have w0 := drawPathJ_written g.height 0 path (mapPathBase g) x y hv
  refine ⟨?_, ?_, ?_, ?_, ?_, ?_⟩
  · rw [e1]
    exact w1.1
  · rw [e1]
    exact w1.2
  · rw [e1]
    exact drawPathJ_chan g.height 1 path (mapPathBase g) x y 0
      (by omega) (by omega)
  · rw [e2]
    exact w0.1
  · rw [e2]
    exact w0.2
  · rw [e2]
    exact drawPathJ_chan g.height 0 path (mapPathBase g) x y 2
      (by omega) (by omega)

/-- Witness for the amended C4 at the 1×1 free grid and the path [(0, 0)]. -/
theorem C4_single_vs_multi_witness :
    plotMapPathImg g1 pEx 0 0 1 = 0 ∧
    plotMapPathImg g1 pEx 0 0 2 = 0 ∧
    plotMapPathImg g1 pEx 0 0 0 = mapPathBase g1 0 0 0 ∧
    plotMapPathsImg g1 [pEx] 0 0 0 = 0 ∧
    plotMapPathsImg g1 [pEx] 0 0 1 = 0 ∧
    plotMapPathsImg g1 [pEx] 0 0 2 = mapPathBase g1 0 0 2 :=
  C4_single_vs_multi g1 pEx 0 0 (by decide)

/-- C5: path overlay is frame-preserving off the path: a pixel that is not
the truncated raster position of any path vertex keeps exactly its base
occupancy-rendering value — 255 on every channel over a free cell and 0
over an occupied cell — for both plotMapPath and plotMapPaths. -/
theorem C5_frame_preservation (g : NDGridMap) (path : Path2D)
    (paths : Paths2D) (x y c : ℕ)
    (h1 : ∀ p ∈ path, vertPos g.height p ≠ (x, y))
    (h2 : ∀ q ∈ paths, ∀ p ∈ q, vertPos g.height p ≠ (x, y)) :
    plotMapPathImg g path x y c = mapPathBase g x y c ∧
    plotMapPathsImg g paths x y c = mapPathBase g x y c ∧
    mapPathBase g x y c
      = (if (g.cells (g.width * (g.height - y - 1) + x)).isOccupied
          then 0 else 255) := by
  refine ⟨?_, ?_, rfl⟩
  · rw [show plotMapPathImg g path
        = drawPathJ g.height 1 (mapPathBase g) path from rfl]
    exact drawPathJ_frame g.height 1 path (mapPathBase g) x y c h1
  · exact drawPathsFrom_frame g.height paths 0 (mapPathBase g) x y c h2

/-- Witness for C5: on the 3×3 free grid with the diagonal path, the pixel
(0, 0) is not a vertex raster position (the vertices map to (0,2), (1,1),
(2,0)), and it keeps the base value 255. -/
theorem C5_frame_preservation_witness :
    plotMapPathImg gFree3 pathDiag 0 0 0 = mapPathBase gFree3 0 0 0 ∧
    plotMapPathsImg gFree3 [pathDiag] 0 0 0 = mapPathBase gFree3 0 0 0 ∧
    mapPathBase gFree3 0 0 0
      = (if (gFree3.cells (gFree3.width * (gFree3.height - 0 - 1) + 0)).isOccupied
          then 0 else 255) :=
  C5_frame_preservation gFree3 pathDiag [pathDiag] 0 0 0 (by decide) (by decide)

/-- C9: in the two-path overlay a pixel that is a truncated vertex raster
position of both paths ends with all three channels 0, a black pixel: path
0 zeroes channels 0 and 1, path 1 zeroes channels 1 and 2, so the per-path
highlight color is lost where traces overlap. -/
theorem C9_overlap_black (g : NDGridMap) (p0 p1 : Path2D) (x y : ℕ)
    (h0 : ∃ p ∈ p0, vertPos g.height p = (x, y))
    (h1 : ∃ p ∈ p1, vertPos g.height p = (x, y)) :
    plotMapPathsImg g [p0, p1] x y 0 = 0 ∧
    plotMapPathsImg g [p0, p1] x y 1 = 0 ∧
    plotMapPathsImg g [p0, p1] x y 2 = 0 := by
  have e : plotMapPathsImg g [p0, p1]
      = drawPathJ g.height 1 (drawPathJ g.height 0 (mapPathBase g) p0) p1 :=
    rfl
  have w1 := drawPathJ_written g.height 1 p1
    (drawPathJ g.height 0 (mapPathBase g) p0) x y h1
  refine ⟨?_, ?_, ?_⟩
  · rw [e, drawPathJ_chan g.height 1 p1 _ x y 0 (by omega) (by omega)]
    exact (drawPathJ_written g.height 0 p0 (mapPathBase g) x y h0).1
  · rw [e]
    exact w1.1
  · rw [e]
    exact w1.2

/-- Witness for C9 on the 3×3 free grid: the vertex (1, 1) of path 0 and
the vertex (1.5, 1.5) of path 1 both land on raster pixel (1, 1), which
ends black. -/
theorem C9_overlap_black_witness :
    plotMapPathsImg gFree3 [p0Ex, p1Ex] 1 1 0 = 0 ∧
    plotMapPathsImg gFree3 [p0Ex, p1Ex] 1 1 1 = 0 ∧
    plotMapPathsImg gFree3 [p0Ex, p1Ex] 1 1 2 = 0 :=
  C9_overlap_black gFree3 p0Ex p1Ex 1 1
    ⟨((1 : ℚ), (1 : ℚ)), by simp [p0Ex], by
      norm_num [vertPos, truncD, gFree3]⟩
    ⟨((3 / 2 : ℚ), (3 / 2 : ℚ)), by simp [p1Ex], by
      norm_num [vertPos, truncD, gFree3]⟩

/-- C10: plotArrivalTimesPath does not zero channels: it writes 255 into the
single-channel buffer at each truncated vertex position, overwriting the
cell's normalized scalar, and only then applies the jet colormap, so every
path pixel displays the lookup table's entry for 255 — the maximum-value
color — regardless of the underlying cell value. -/
theorem C10_path_saturates (lut : ℕ → ℚ × ℚ × ℚ) (g : NDGridMap)
    (path : Path2D) (name : String) (x y : ℕ)
    (hv : ∃ p ∈ path, vertPos g.height p = (x, y)) :
    plotArrivalTimesPathPre g path x y = some 255 ∧
    (plotArrivalTimesPath lut g path name).2 x y = some (lut 255) := by
  have hpre : plotArrivalTimesPathPre g path x y = some 255 :=
    writeVerts_written g.height path (plotArrivalTimesPre g) x y hv
  refine ⟨hpre, ?_⟩
  show mapLUT lut (plotArrivalTimesPathPre g path) x y = some (lut 255)
  have ht : truncD (255 : ℚ) = 255 := by decide
  simp [mapLUT, hpre, ht]

/-- Witness for C10 on the 2×2 valued grid: the vertex (0, 0) lands on
raster pixel (0, 1); the buffer holds 255 there and the displayed pixel is
the LUT entry for 255. -/
theorem C10_path_saturates_witness :
    plotArrivalTimesPathPre gVal pEx 0 1 = some 255 ∧
    (plotArrivalTimesPath lutEx gVal pEx "n").2 0 1 = some (lutEx 255) :=
  C10_path_saturates lutEx gVal pEx "n" 0 1 (by decide)

/-- C6 counterexample: on a concrete grid whose getMaxValue() is 0,
plotArrivalTimes completes silently instead of failing: the display sink
still receives the suffixed title and a buffer, whose pixels are the
non-finite results of the IEEE division by zero (modelled none). -/
theorem C6_counterexample :
    (plotArrivalTimes lutEx gZero "").1 = " Grid values" ∧
    (plotArrivalTimes lutEx gZero "").2 0 0 = none ∧
    plotArrivalTimesPre gZero 0 0 = none := by
  refine ⟨rfl, ?_, by decide⟩
  show mapLUT lutEx (plotArrivalTimesPre gZero) 0 0 = none
  have hp : plotArrivalTimesPre gZero 0 0 = none := by decide
  simp [mapLUT, hp]

/-- C6 amended: when getMaxValue() is 0, plotArrivalTimes performs no check
and raises no error: every pixel's division by zero yields a non-finite
IEEE value (modelled none), and the render still completes, handing the
display sink the colormapped buffer under the title name + " Grid values". -/
theorem C6_no_zero_guard (lut : ℕ → ℚ × ℚ × ℚ) (g : NDGridMap)
    (name : String) (hm : g.getMaxValue = 0) :
    (∀ x y, plotArrivalTimesPre g x y = none) ∧
    (∀ x y, (plotArrivalTimes lut g name).2 x y = none) ∧
    (plotArrivalTimes lut g name).1 = name ++ " Grid values" := by
  have hp : ∀ x y, plotArrivalTimesPre g x y = none := by
    intro x y
    simp [plotArrivalTimesPre, ddiv, hm]
  refine ⟨hp, ?_, rfl⟩
  intro x y
  show mapLUT lut (plotArrivalTimesPre g) x y = none
  simp [mapLUT, hp x y]

/-- Witness for the amended C6 at the concrete zero-max grid. -/
theorem C6_no_zero_guard_witness :
    (∀ x y, plotArrivalTimesPre gZero x y = none) ∧
    (∀ x y, (plotArrivalTimes lutEx gZero "t").2 x y = none) ∧
    (plotArrivalTimes lutEx gZero "t").1 = "t" ++ " Grid values" :=
  C6_no_zero_guard lutEx gZero "t" (by decide)

/-- C7 counterexample: three paths on the 1×1 free grid are not detected or
rejected — the overlay silently writes pixels (channel 0 of the vertex
pixel drops from its base 255 to 0), its issued stores include one at
channel index 3 of the 3-channel buffer (out of bounds), and the buffer is
still handed to the sink under the suffixed title. -/
theorem C7_counterexample :
    plotMapPathsImg g1 [pEx, pEx, pEx] 0 0 0 = 0 ∧
    mapPathBase g1 0 0 0 = 255 ∧
    (((0 : ℕ), (0 : ℕ), (3 : ℕ)) ∈ plotMapPathsWrites g1 [pEx, pEx, pEx]) ∧
    (plotMapPaths g1 [pEx, pEx, pEx] "").1 = " Map and Paths" :=
  ⟨by decide, by decide, by decide, rfl⟩

/-- C7 amended: plotMapPaths performs no capacity check: with three paths it
still completes and hands the sink the suffixed title and buffer, and
whenever the third path is non-empty, the vertex loop at path index 2
issues a store at channel index 3 — outside the 3-channel buffer, which is
undefined behavior in the C++ source; the documented 2-path limit is not
enforced at runtime. -/
theorem C7_no_capacity_check (g : NDGridMap) (p0 p1 p2 : Path2D)
    (name : String) (h : p2 ≠ []) :
    (plotMapPaths g [p0, p1, p2] name).1 = name ++ " Map and Paths" ∧
    ∃ w ∈ plotMapPathsWrites g [p0, p1, p2], w.2.2 = 3 := by
  refine ⟨rfl, ?_⟩
  obtain ⟨v, rest, rfl⟩ : ∃ v rest, p2 = v :: rest := by
    cases p2 with
    | nil => exact absurd rfl h
    | cons v rest => exact ⟨v, rest, rfl⟩
  refine ⟨((vertPos g.height v).1, (vertPos g.height v).2, 3), ?_, rfl⟩
  have hin : ((vertPos g.height v).1, (vertPos g.height v).2, 3)
      ∈ vertWritesJ g.height 2 v := by
    simp [vertWritesJ]
  have hin2 : ((vertPos g.height v).1, (vertPos g.height v).2, 3)
      ∈ pathWritesJ g.height 2 (v :: rest) :=
    List.mem_flatMap.mpr ⟨v, List.mem_cons_self v rest, hin⟩
  show ((vertPos g.height v).1, (vertPos g.height v).2, 3)
      ∈ pathWritesJ g.height 0 p0
        ++ (pathWritesJ g.height 1 p1
          ++ (pathWritesJ g.height 2 (v :: rest) ++ []))
  exact List.mem_append_right _
    (List.mem_append_right _ (List.mem_append_left _ hin2))

/-- Witness for the amended C7 with three copies of the one-vertex path. -/
theorem C7_no_capacity_check_witness :
    (plotMapPaths g1 [pEx, pEx, pEx] "t").1 = "t" ++ " Map and Paths" ∧
    ∃ w ∈ plotMapPathsWrites g1 [pEx, pEx, pEx], w.2.2 = 3 :=
  C7_no_capacity_check g1 pEx pEx pEx "t" (by decide)

/-- C8: every render entry point passes the caller's title to the display
sink with its mode-specific suffix appended verbatim and no other
transformation: " Map", " Occupancy Map", " Grid values", " Map and Path"
(both single-path overlays), " Map and Paths" and " Values and Path". -/
theorem C8_title_suffixes (lut : ℕ → ℚ × ℚ × ℚ) (g : NDGridMap)
    (path : Path2D) (paths : Paths2D) (name : String) :
    (plotMap g name).1 = name ++ " Map" ∧
    (plotOccupancyMap g name).1 = name ++ " Occupancy Map" ∧
    (plotArrivalTimes lut g name).1 = name ++ " Grid values" ∧
    (plotMapPath g path name).1 = name ++ " Map and Path" ∧
    (plotOccupancyPath g path name).1 = name ++ " Map and Path" ∧
    (plotMapPaths g paths name).1 = name ++ " Map and Paths" ∧
    (plotArrivalTimesPath lut g path name).1 = name ++ " Values and Path" :=
  ⟨rfl, rfl, rfl, rfl, rfl, rfl, rfl⟩

end GridPlotter
